import Mathlib

/-!
Shallow embedding of the Bling OAuth2 token lifecycle manager
(`src/token_manager.py`, class `BlingTokenManager`).

Conventions of the embedding:
* Timestamps are integers (seconds since epoch).  Python uses floats from
  `time.time()` / `datetime.now().timestamp()`; the arithmetic performed on
  them (additions, subtractions, comparisons) is modelled exactly over `Int`.
* The persisted token dictionary is modelled by `TokenData` with one
  `Option` field per JSON key the manager reads (`access_token`,
  `refresh_token`, `created_at`, `expires_in`); a missing key is `none`.
  `self._token_data` itself is `Option TokenData` (`none` models Python
  `None` / an empty falsy dict).
* Every HTTP exchange with the authorization server consumes the head of an
  oracle list `List NetOutcome` describing what the transport returns for
  that attempt (a 200 JSON body, a non-200 response whose parsed error body
  is or is not `invalid_grant`, or a `requests` Timeout/ConnectionError).
  An exhausted oracle behaves like a connection error.
* Methods are state-transformer functions.  Each returns
  `Option (result × Mgr × List NetOutcome) × List Ev`: the first component
  is `none` when the execution blocks forever (the class uses a
  non-reentrant `threading.Lock`; acquiring it again from the same thread
  deadlocks), otherwise the result, the post state and the remaining
  oracle.  The second component is the event trace: lock acquisitions and
  releases, network calls (tagged with the OAuth grant used), recovery
  webhook posts, `asyncio.sleep` calls of the retry loop, and WhatsApp
  message sends.
* File system writes are assumed to succeed; `Mgr.file` mirrors the
  persisted `bling_token.json` contents.
-/

namespace Bling

abbrev Time := Int

/-- The persisted credential record: the fields of the token JSON dict the
manager actually reads.  `none` models a missing key. -/
structure TokenData where
  accessToken : Option String
  refreshToken : Option String
  createdAt : Option Time
  expiresIn : Option Int
deriving Repr, DecidableEq

/-- Constructor-time configuration of `BlingTokenManager` plus the behaviour
of its external collaborators (WhatsApp client, recovery webhook). -/
structure Config where
  /-- both `client_id` and `client_secret` are non-empty -/
  hasCreds : Bool
  /-- `max_failures_before_alert`, default 3 -/
  maxFailuresBeforeAlert : Nat
  /-- `min_notification_interval` in minutes, default 30 -/
  minNotificationInterval : Int
  /-- `max_backoff_minutes`, default 120 -/
  maxBackoffMinutes : Int
  /-- `whatsapp_client` and `admin_phone` are both configured -/
  hasWhatsapp : Bool
  /-- `whatsapp_client.send_message` reports success -/
  whatsappOk : Bool
  /-- `webhook_url` is configured -/
  hasWebhook : Bool
  /-- the recovery webhook answers with a 2xx status -/
  webhookOk : Bool
deriving Repr, DecidableEq

/-- The default constructor configuration (credentials set, WhatsApp
configured and working, no recovery webhook). -/
def defaultConfig : Config :=
  { hasCreds := true, maxFailuresBeforeAlert := 3, minNotificationInterval := 30,
    maxBackoffMinutes := 120, hasWhatsapp := true, whatsappOk := true,
    hasWebhook := false, webhookOk := false }

/-- Mutable manager state: in-memory token data, the mirrored contents of
the token file, and the recovery-state fields of `__init__`. -/
structure Mgr where
  /-- `self._token_data` -/
  tokenData : Option TokenData
  /-- contents of `self.token_file` on disk (`none` = file absent) -/
  file : Option TokenData
  /-- the token file was modified out-of-band since the last `_load_token`
  (the `_last_token_mtime` comparison in `get_valid_token`) -/
  extModified : Bool
  /-- `self.error_state` -/
  errorState : Bool
  /-- `self.consecutive_failures` -/
  consecutiveFailures : Nat
  /-- `self.last_error_time` -/
  lastErrorTime : Option Time
  /-- `self.backoff_minutes` (15 initially and after each reset) -/
  backoffMinutes : Int
  /-- `self.last_notification_time` -/
  lastNotificationTime : Option Time
deriving Repr, DecidableEq

/-- OAuth grant used by a network call to the token endpoint. -/
inductive Grant
  | refreshGrant
  | clientCredentials
  | authCode
deriving Repr, DecidableEq

/-- Observable events of one method execution. -/
inductive Ev
  /-- `self._token_lock.acquire()` succeeded -/
  | acquire
  /-- `self._token_lock.release()` -/
  | release
  /-- HTTP POST to the authorization server's token endpoint -/
  | net (g : Grant)
  /-- HTTP POST to the recovery webhook -/
  | webhook
  /-- `await asyncio.sleep(n)` inside the retry loop -/
  | sleepSec (n : Nat)
  /-- WhatsApp failure alert send attempted (`_notify_token_failure`) -/
  | notifyFailure
  /-- WhatsApp success message send (`create_token_from_auth_code`) -/
  | notifySuccess
deriving Repr, DecidableEq

/-- Transport-level outcome of one POST to the token endpoint. -/
inductive NetOutcome
  /-- status 200 with this JSON body -/
  | ok (accessToken : String) (refreshToken : Option String) (expiresIn : Int)
  /-- non-200 status; `invalidGrant` is whether the parsed error body
  carries the `invalid_grant` marker -/
  | httpError (invalidGrant : Bool)
  /-- `requests.exceptions.Timeout` / `ConnectionError` raised -/
  | connError
deriving Repr, DecidableEq

/-- Pop the next transport outcome; an exhausted oracle acts as a
connection error. -/
def popOutcome (oracle : List NetOutcome) : NetOutcome × List NetOutcome :=
  (oracle.headD .connError, oracle.tail)

/-- Build the in-memory record from a 200 response body, adding
`created_at = now` exactly as all three renewal paths do
(`new_token_data["created_at"] = datetime.now().timestamp()`). -/
def respToData (accessToken : String) (refreshToken : Option String)
    (expiresIn : Int) (now : Time) : TokenData :=
  { accessToken := some accessToken, refreshToken := refreshToken,
    createdAt := some now, expiresIn := some expiresIn }

/-- Embeds `_is_token_expired_or_expiring_soon(threshold_seconds)`: pure predicate
on the record and the current time.  True when the record is absent, lacks
`expires_in` or `created_at`, or
`created_at + expires_in - now <= threshold_seconds`. -/
def isTokenExpiredOrExpiringSoon (td : Option TokenData) (now : Time)
    (thresholdSeconds : Int) : Bool :=
  match td with
  | none => true
  | some d =>
    match d.expiresIn, d.createdAt with
    | some e, some c =>
      -- remaining_seconds = expiry_timestamp - current_timestamp
      decide (c + e - now ≤ thresholdSeconds)
    | _, _ => true

/-- The `created_at` sanitation performed by `_load_token`: a timestamp
more than 3600 s in the future, or a missing `created_at`, is replaced by
`time.time() - 19000` ("5 horas atrás para forçar renovação"). -/
def clampCreatedAt (d : TokenData) (now : Time) : TokenData :=
  match d.createdAt with
  | some c => if now + 3600 < c then { d with createdAt := some (now - 19000) } else d
  | none => { d with createdAt := some (now - 19000) }

/-- Whether `_load_token` rewrites the record (future or missing
`created_at`), which makes it call `_save_token`. -/
def loadNeedsCorrection (d : TokenData) (now : Time) : Bool :=
  match d.createdAt with
  | some c => decide (now + 3600 < c)
  | none => true

/-- Embeds `_save_token`: under the token lock, write `self._token_data` to the
file, mirror the access token into `.env`, and reset the error state
(`error_state = False`, `consecutive_failures = 0`,
`last_error_time = None`, `backoff_minutes = 15`).
`held` says whether the calling thread already holds the non-reentrant
token lock; acquiring it again blocks forever (`none`). -/
def saveToken (held : Bool) (m : Mgr) : Option Mgr × List Ev :=
  if held then (none, [])
  else
    (some { m with
        file := m.tokenData,
        errorState := false,
        consecutiveFailures := 0,
        lastErrorTime := none,
        backoffMinutes := 15 },
      [.acquire, .release])

/-- The send half of `_notify_token_failure`: if a WhatsApp client and an
admin phone are configured the message is sent; on reported success
`last_notification_time` is set to now. -/
def notifySend (cfg : Config) (m : Mgr) (now : Time) : Mgr × List Ev :=
  if cfg.hasWhatsapp then
    if cfg.whatsappOk then ({ m with lastNotificationTime := some now }, [.notifyFailure])
    else (m, [.notifyFailure])
  else (m, [])

/-- Embeds `_notify_token_failure`: rate-limited failure alert.  A previous
notification less than `min_notification_interval` minutes ago suppresses
the send entirely. -/
def notifyTokenFailure (cfg : Config) (m : Mgr) (now : Time) : Mgr × List Ev :=
  match m.lastNotificationTime with
  | some t =>
    if now - t < cfg.minNotificationInterval * 60 then (m, [])
    else notifySend cfg m now
  | none => notifySend cfg m now

/-- The backoff test of `_should_attempt_recovery`, scaled by 2 to stay in
integers: Python compares
`elapsed_seconds > min(backoff_minutes * 2 ** (failures - 1), max_backoff_minutes) * 60`
where `2 ** (failures - 1)` is the float `0.5` when `failures = 0`.
Multiplying both sides by 2 gives the equivalent integer comparison
`2 * elapsed > min (backoffMinutes * 60 * 2 ^ failures) (maxBackoff * 120)`. -/
def backoffElapsed (cfg : Config) (m : Mgr) (elapsedSeconds : Int) : Bool :=
  decide (min (m.backoffMinutes * 60 * 2 ^ m.consecutiveFailures)
      (cfg.maxBackoffMinutes * 120) < 2 * elapsedSeconds)

/-- Embeds `_should_attempt_recovery`: true outside the error state; in the error
state, true once the exponential backoff window has elapsed since
`last_error_time`.  A missing `last_error_time` is set to now (the method
mutates the state). -/
def shouldAttemptRecovery (cfg : Config) (m : Mgr) (now : Time) : Bool × Mgr :=
  if m.errorState = false then (true, m)
  else
    match m.lastErrorTime with
    | none => (true, { m with lastErrorTime := some now })
    | some t =>
      if backoffElapsed cfg m (now - t) then (true, m) else (false, m)

/-- Projection of a trace to the grants of its token-endpoint calls. -/
def netCalls (tr : List Ev) : List Grant :=
  tr.filterMap fun e => match e with | .net g => some g | _ => none

/-- Projection of a trace to its retry-loop sleep durations. -/
def sleepCalls (tr : List Ev) : List Nat :=
  tr.filterMap fun e => match e with | .sleepSec n => some n | _ => none

/-- Number of WhatsApp failure-alert sends in a trace. -/
def notifyCount (tr : List Ev) : Nat :=
  tr.countP fun e => e = .notifyFailure

/-- Walks the trace tracking lock depth; true when some token-endpoint call
happens at positive depth, i.e. while the token lock is held. -/
def netUnderLockFrom (depth : Nat) : List Ev → Bool
  | [] => false
  | .acquire :: tl => netUnderLockFrom (depth + 1) tl
  | .release :: tl => netUnderLockFrom (depth - 1) tl
  | .net _ :: tl => decide (0 < depth) || netUnderLockFrom depth tl
  | _ :: tl => netUnderLockFrom depth tl

/-- True when a token-endpoint network call occurs while the token lock is
held. -/
def netUnderLock (tr : List Ev) : Bool :=
  netUnderLockFrom 0 tr

/-- Embeds `_try_client_credentials`: one single POST with
`grant_type=client_credentials` (no retry loop), guarded by the presence of
client credentials.  On a 200 the body plus `created_at = now` is stored
under the token lock and `_save_token` is called; on any non-200 or raised
connection error the method returns `False`.  When `held` is true the
store step re-acquires the already-held non-reentrant lock and blocks. -/
def tryClientCredentials (cfg : Config) (held : Bool) (m : Mgr)
    (oracle : List NetOutcome) (now : Time) :
    Option (Bool × Mgr × List NetOutcome) × List Ev :=
  if cfg.hasCreds = false then (some (false, m, oracle), [])
  else
    match popOutcome oracle with
    | (.ok a r e, o) =>
      if held then (none, [.net .clientCredentials])
      else
        match saveToken false { m with tokenData := some (respToData a r e now) } with
        | (some m2, trs) =>
          (some (true, m2, o), [.net .clientCredentials, .acquire, .release] ++ trs)
        | (none, trs) => (none, [.net .clientCredentials, .acquire, .release] ++ trs)
    | (.httpError _, o) => (some (false, m, o), [.net .clientCredentials])
    | (.connError, o) => (some (false, m, o), [.net .clientCredentials])

/-- The last-resort step of `_attempt_token_recovery`: after more than 10
consecutive failures, back up and delete the token file, clear the
in-memory record under the token lock, and send a failure alert. -/
def recoveryDelete (cfg : Config) (held : Bool) (m : Mgr) (now : Time) :
    Option Mgr × List Ev :=
  if 10 < m.consecutiveFailures ∧ m.file.isSome = true then
    if held then (none, [])
    else
      match notifyTokenFailure cfg { m with file := none, tokenData := none } now with
      | (m2, trn) => (some m2, [.acquire, .release] ++ trn)
  else (some m, [])

/-- Embeds `_attempt_token_recovery`: try client-credentials first; if that fails
and a recovery webhook is configured, POST to it and stop on a 2xx; finally
fall through to the delete-after-10-failures last resort.  The method
returns no value; only its state effects matter. -/
def attemptTokenRecovery (cfg : Config) (held : Bool) (m : Mgr)
    (oracle : List NetOutcome) (now : Time) :
    Option (Mgr × List NetOutcome) × List Ev :=
  match tryClientCredentials cfg held m oracle now with
  | (none, tr) => (none, tr)
  | (some (true, m1, o1), tr) => (some (m1, o1), tr)
  | (some (false, m1, o1), tr) =>
    if cfg.hasWebhook then
      if cfg.webhookOk then (some (m1, o1), tr ++ [.webhook])
      else
        match recoveryDelete cfg held m1 now with
        | (none, trd) => (none, tr ++ [.webhook] ++ trd)
        | (some m2, trd) => (some (m2, o1), tr ++ [.webhook] ++ trd)
    else
      match recoveryDelete cfg held m1 now with
      | (none, trd) => (none, tr ++ trd)
      | (some m2, trd) => (some (m2, o1), tr ++ trd)

/-- The `for attempt in range(3)` retry loop of `refresh_token`: POST with
`grant_type=refresh_token`; a received HTTP response (any status) breaks
the loop; a Timeout/ConnectionError sleeps `2 * (attempt + 1)` seconds
(2 s then 4 s) and retries, and is re-raised on the third attempt
(returned here as `none`). -/
def refreshRetryLoop (oracle : List NetOutcome) :
    Option NetOutcome × List NetOutcome × List Ev :=
  match popOutcome oracle with
  | (.connError, o1) =>
    match popOutcome o1 with
    | (.connError, o2) =>
      match popOutcome o2 with
      | (.connError, o3) =>
        (none, o3,
          [.net .refreshGrant, .sleepSec 2, .net .refreshGrant, .sleepSec 4, .net .refreshGrant])
      | (r, o3) =>
        (some r, o3,
          [.net .refreshGrant, .sleepSec 2, .net .refreshGrant, .sleepSec 4, .net .refreshGrant])
    | (r, o2) => (some r, o2, [.net .refreshGrant, .sleepSec 2, .net .refreshGrant])
  | (r, o1) => (some r, o1, [.net .refreshGrant])

/-- The missing-data branch of `refresh_token` (no token data or no
`refresh_token` key), which runs inside the first `with self._token_lock:`
block: on the first failure it bumps the failure counter and tries
client-credentials then `_attempt_token_recovery` — still holding the
lock — and returns `False` (or `True` if client-credentials succeeded). -/
def refreshNoToken (cfg : Config) (m : Mgr) (oracle : List NetOutcome) (now : Time) :
    Option (Bool × Mgr × List NetOutcome) × List Ev :=
  if m.consecutiveFailures = 0 then
    match tryClientCredentials cfg true
        { m with consecutiveFailures := 1, lastErrorTime := some now } oracle now with
    | (none, tr) => (none, .acquire :: tr)
    | (some (true, m2, o2), tr) => (some (true, m2, o2), .acquire :: tr ++ [.release])
    | (some (false, m2, o2), tr) =>
      match attemptTokenRecovery cfg true m2 o2 now with
      | (none, tr2) => (none, .acquire :: (tr ++ tr2))
      | (some (m3, o3), tr2) => (some (false, m3, o3), .acquire :: (tr ++ tr2 ++ [.release]))
  else (some (false, m, oracle), [.acquire, .release])

/-- The tail of `refresh_token` from the retry loop on (`pre` is the trace
accumulated before it): dispatch on the received response.  200 → store the
body with `created_at = now` under the lock and `_save_token`; non-200 →
count the failure and, on an `invalid_grant` error body, enter the error
state, alert once past the threshold, and escalate to client-credentials
and `_attempt_token_recovery`; three connection errors → the re-raised
exception lands in the outer `except` handler, which counts the failure
and alerts past the threshold. -/
def refreshMain (cfg : Config) (m : Mgr) (oracle : List NetOutcome) (now : Time) :
    Option (Bool × Mgr × List NetOutcome) × List Ev :=
  match refreshRetryLoop oracle with
  | (none, o, tr) =>
    if cfg.maxFailuresBeforeAlert ≤ m.consecutiveFailures + 1 then
      match notifyTokenFailure cfg
          { m with
            consecutiveFailures := m.consecutiveFailures + 1,
            lastErrorTime := some now } now with
      | (m2, tr2) => (some (false, m2, o), tr ++ tr2)
    else
      (some (false,
        { m with
          consecutiveFailures := m.consecutiveFailures + 1,
          lastErrorTime := some now }, o), tr)
  | (some (.ok a r e), o, tr) =>
    match saveToken false { m with tokenData := some (respToData a r e now) } with
    | (some m2, trs) => (some (true, m2, o), tr ++ [.acquire, .release] ++ trs)
    | (none, trs) => (none, tr ++ [.acquire, .release] ++ trs)
  | (some (.httpError ig), o, tr) =>
    if ig then
      match (if cfg.maxFailuresBeforeAlert ≤ m.consecutiveFailures + 1 then
          notifyTokenFailure cfg
            { m with
              consecutiveFailures := m.consecutiveFailures + 1,
              lastErrorTime := some now, errorState := true } now
        else
          ({ m with
             consecutiveFailures := m.consecutiveFailures + 1,
             lastErrorTime := some now, errorState := true }, [])) with
      | (m3, tr3) =>
        match tryClientCredentials cfg false m3 o now with
        | (none, trc) => (none, tr ++ tr3 ++ trc)
        | (some (true, m4, o4), trc) => (some (true, m4, o4), tr ++ tr3 ++ trc)
        | (some (false, m4, o4), trc) =>
          match attemptTokenRecovery cfg false m4 o4 now with
          | (none, trr) => (none, tr ++ tr3 ++ trc ++ trr)
          | (some (m5, o5), trr) => (some (false, m5, o5), tr ++ tr3 ++ trc ++ trr)
    else
      (some (false,
        { m with
          consecutiveFailures := m.consecutiveFailures + 1,
          lastErrorTime := some now }, o), tr)
  | (some .connError, o, tr) =>
    -- unreachable: the loop stops only with a received response or by raising
    (some (false, m, o), tr)

/-- The second `with self._token_lock:` block of `refresh_token` (the
12-hour heuristic): when the stored record expired more than 43200 s ago,
client-credentials is tried first — while still holding the lock — and
only on its failure does control continue to the refresh-grant exchange. -/
def refreshLongExpiredCheck (cfg : Config) (m : Mgr) (d : TokenData)
    (oracle : List NetOutcome) (now : Time) :
    Option (Bool × Mgr × List NetOutcome) × List Ev :=
  match d.createdAt, d.expiresIn with
  | some c, some e =>
    if c + e + 43200 < now then
      match tryClientCredentials cfg true m oracle now with
      | (none, tr) => (none, [.acquire, .release, .acquire] ++ tr)
      | (some (true, m2, o2), tr) =>
        (some (true, m2, o2), [.acquire, .release, .acquire] ++ tr ++ [.release])
      | (some (false, m2, o2), tr) =>
        match refreshMain cfg m2 o2 now with
        | (res, tr2) => (res, [.acquire, .release, .acquire] ++ tr ++ [.release] ++ tr2)
    else
      match refreshMain cfg m oracle now with
      | (res, tr2) => (res, [.acquire, .release, .acquire, .release] ++ tr2)
  | _, _ =>
    match refreshMain cfg m oracle now with
    | (res, tr2) => (res, [.acquire, .release, .acquire, .release] ++ tr2)

/-- Embeds `refresh_token()`: backoff gate, then — under the token lock — the
missing-data branch or the read of the stored refresh token, then the
12-hour heuristic and the refresh-grant exchange. -/
def refreshToken (cfg : Config) (m : Mgr) (oracle : List NetOutcome) (now : Time) :
    Option (Bool × Mgr × List NetOutcome) × List Ev :=
  match shouldAttemptRecovery cfg m now with
  | (false, m0) => (some (false, m0, oracle), [])
  | (true, m0) =>
    match m0.tokenData with
    | none => refreshNoToken cfg m0 oracle now
    | some d =>
      match d.refreshToken with
      | none => refreshNoToken cfg m0 oracle now
      | some _ => refreshLongExpiredCheck cfg m0 d oracle now

/-- Embeds `_load_token` as called from a running process: read the file if
present, clamp a future `created_at`, and — when a correction was made —
write the corrected record back through `_save_token`. -/
def loadTokenMgr (m : Mgr) (now : Time) : Mgr × List Ev :=
  match m.file with
  | none => ({ m with extModified := false }, [])
  | some fd =>
    if loadNeedsCorrection fd now then
      match saveToken false
          { m with tokenData := some (clampCreatedAt fd now), extModified := false } with
      | (some m2, tr) => (m2, tr)
      | (none, tr) =>
        ({ m with tokenData := some (clampCreatedAt fd now), extModified := false }, tr)
    else ({ m with tokenData := some (clampCreatedAt fd now), extModified := false }, [])

/-- The final `with self._token_lock:` block of `get_valid_token`: read and
return the current access token (possibly `None`). -/
def getValidTokenFinal (m : Mgr) (o : List NetOutcome) (pre : List Ev) :
    Option (Option String × Mgr × List NetOutcome) × List Ev :=
  (some (m.tokenData.bind TokenData.accessToken, m, o), pre ++ [.acquire, .release])

/-- Embeds `get_valid_token()`: reload on out-of-band file modification; bail out
under error-state backoff; under the token lock, if no usable access token
is stored, attempt client-credentials while still holding the lock;
otherwise check staleness with the 600 s margin and renew if needed; on
failed renewal fall back on the stored token when it has not yet reached
its declared expiry, else attempt one final client-credentials exchange —
again while holding the lock. -/
def getValidToken (cfg : Config) (m : Mgr) (oracle : List NetOutcome) (now : Time) :
    Option (Option String × Mgr × List NetOutcome) × List Ev :=
  match (if m.extModified then loadTokenMgr m now else (m, [])) with
  | (mL, trL) =>
    match (if mL.errorState then shouldAttemptRecovery cfg mL now else (true, mL)) with
    | (false, m0) => (some (none, m0, oracle), trL)
    | (true, m0) =>
      match (match m0.tokenData with
             | none => none
             | some d => d.accessToken) with
      | none =>
        match tryClientCredentials cfg true m0 oracle now with
        | (none, tr) => (none, trL ++ [.acquire] ++ tr)
        | (some (true, m1, o1), tr) =>
          (some (m1.tokenData.bind TokenData.accessToken, m1, o1),
            trL ++ [.acquire] ++ tr ++ [.release])
        | (some (false, m1, o1), tr) =>
          (some (none, m1, o1), trL ++ [.acquire] ++ tr ++ [.release])
      | some _ =>
        if isTokenExpiredOrExpiringSoon m0.tokenData now 600 then
          match refreshToken cfg m0 oracle now with
          | (none, tr) => (none, trL ++ [.acquire, .release] ++ tr)
          | (some (true, m1, o1), tr) =>
            getValidTokenFinal m1 o1 (trL ++ [.acquire, .release] ++ tr)
          | (some (false, m1, o1), tr) =>
            match (match m1.tokenData with
                   | none => none
                   | some d => d.accessToken) with
            | some a =>
              if isTokenExpiredOrExpiringSoon m1.tokenData now 0 = false then
                (some (some a, m1, o1),
                  trL ++ [.acquire, .release] ++ tr ++ [.acquire, .release])
              else
                match tryClientCredentials cfg true m1 o1 now with
                | (none, trc) =>
                  (none, trL ++ [.acquire, .release] ++ tr ++ [.acquire] ++ trc)
                | (some (true, m2, o2), trc) =>
                  (some (m2.tokenData.bind TokenData.accessToken, m2, o2),
                    trL ++ [.acquire, .release] ++ tr ++ [.acquire] ++ trc ++ [.release])
                | (some (false, m2, o2), trc) =>
                  (some (none, m2, o2),
                    trL ++ [.acquire, .release] ++ tr ++ [.acquire] ++ trc ++ [.release])
            | none =>
              getValidTokenFinal m1 o1
                (trL ++ [.acquire, .release] ++ tr ++ [.acquire, .release])
        else getValidTokenFinal m0 oracle (trL ++ [.acquire, .release])

/-- Embeds `create_token_from_auth_code`: exchange the authorization code; on 200
store the body with `created_at = now`, `_save_token`, reset the error
fields once more, and send a WhatsApp success message. -/
def createTokenFromAuthCode (cfg : Config) (m : Mgr) (oracle : List NetOutcome)
    (now : Time) : Option (Bool × Mgr × List NetOutcome) × List Ev :=
  match popOutcome oracle with
  | (.ok a r e, o) =>
    match saveToken false { m with tokenData := some (respToData a r e now) } with
    | (some m2, trs) =>
      if cfg.hasWhatsapp then
        (some (true,
          { m2 with
            errorState := false, consecutiveFailures := 0, lastErrorTime := none }, o),
          [.net .authCode, .acquire, .release] ++ trs ++ [.notifySuccess])
      else
        (some (true,
          { m2 with
            errorState := false, consecutiveFailures := 0, lastErrorTime := none }, o),
          [.net .authCode, .acquire, .release] ++ trs)
    | (none, trs) => (none, [.net .authCode, .acquire, .release] ++ trs)
  | (.httpError _, o) => (some (false, m, o), [.net .authCode])
  | (.connError, o) => (some (false, m, o), [.net .authCode])

/-- Whether a transport outcome is a 200 response. -/
def NetOutcome.isOk : NetOutcome → Bool
  | .ok _ _ _ => true
  | _ => false

/-- The recovery-state fields that `_save_token` resets on a successful
persist: zero consecutive failures, error state off, no recorded failure
time, backoff back at its 15 minute base. -/
def recoveryCleared (m : Mgr) : Prop :=
  m.consecutiveFailures = 0 ∧ m.errorState = false ∧ m.lastErrorTime = none ∧
    m.backoffMinutes = 15

/-- A manager with no token data and a clean recovery state (the state right
after `__init__` with no token file). -/
def emptyMgr : Mgr :=
  { tokenData := none, file := none, extModified := false, errorState := false,
    consecutiveFailures := 0, lastErrorTime := none, backoffMinutes := 15,
    lastNotificationTime := none }

/-- A stored record 100 s away from expiry at time 1000 (created at 0,
valid for 1100 s), with access and refresh tokens present. -/
def staleTokenData : TokenData :=
  { accessToken := some "OLD", refreshToken := some "R",
    createdAt := some 0, expiresIn := some 1100 }

/-- A healthy manager holding `staleTokenData`. -/
def staleMgr : Mgr :=
  { emptyMgr with tokenData := some staleTokenData, file := some staleTokenData }

/-! ## Basic lemmas about the embedded methods -/

theorem shouldAttempt_healthy (cfg : Config) (m : Mgr) (now : Time)
    (h : m.errorState = false) : shouldAttemptRecovery cfg m now = (true, m) := by
  simp [shouldAttemptRecovery, h]

theorem saveToken_free (m : Mgr) :
    saveToken false m =
      (some { m with
              file := m.tokenData, errorState := false,
              consecutiveFailures := 0, lastErrorTime := none, backoffMinutes := 15 },
        [.acquire, .release]) := rfl

/-- Acquiring the non-reentrant lock a second time never lets
`_try_client_credentials` reach its success return. -/
theorem tryCC_held_no_true (cfg : Config) (m : Mgr) (oracle : List NetOutcome)
    (now : Time) (b : Bool) (m2 : Mgr) (o2 : List NetOutcome)
    (h : (tryClientCredentials cfg true m oracle now).1 = some (b, m2, o2)) :
    b = false := by
  cases hC : cfg.hasCreds <;> rcases oracle with _ | ⟨r, rest⟩ <;>
    first
      | (rcases r with ⟨a, rt, e⟩ | ig | _ <;>
          simp_all [tryClientCredentials, popOutcome])
      | simp_all [tryClientCredentials, popOutcome]

/-- A successful `_try_client_credentials` went through `_save_token` and so
cleared the recovery state. -/
theorem tryCC_true_cleared (cfg : Config) (held : Bool) (m : Mgr)
    (oracle : List NetOutcome) (now : Time) (m2 : Mgr) (o2 : List NetOutcome)
    (h : (tryClientCredentials cfg held m oracle now).1 = some (true, m2, o2)) :
    recoveryCleared m2 := by
  cases hC : cfg.hasCreds <;> cases held <;> rcases oracle with _ | ⟨r, rest⟩ <;>
    first
      | (rcases r with ⟨a, rt, e⟩ | ig | _ <;>
          simp_all [tryClientCredentials, popOutcome, saveToken] <;>
          simp [recoveryCleared, ← h.1])
      | simp_all [tryClientCredentials, popOutcome, saveToken]

/-! ## Claim theorems -/

/-- C1: `get_valid_token()` on the no-stored-token path calls
`_try_client_credentials` while still holding the token lock: the
credential-grant network exchange happens under the lock, and on a 200
response the store step re-acquires the non-reentrant lock, so the call
never terminates (result `none` = blocked forever).  This refutes the
claimed "no execution path acquires the token lock and then performs a
renewal network exchange while still holding it". -/
theorem getValidToken_no_token_deadlocks :
    (getValidToken defaultConfig emptyMgr [.ok "NEW" none 21600] 1000).1 = none
    ∧ netUnderLock (getValidToken defaultConfig emptyMgr [.ok "NEW" none 21600] 1000).2
        = true := by
  decide

/-- C2: `_is_token_expired_or_expiring_soon` is a pure predicate of the
record, the current time and the margin: true for an absent record, true
when `created_at` or `expires_in` is missing, true exactly when
`created_at + expires_in - now <= margin` and false exactly when
`margin < created_at + expires_in - now`. -/
theorem isStale_spec (td : TokenData) (now margin : Time) :
    isTokenExpiredOrExpiringSoon none now margin = true
    ∧ (td.createdAt = none ∨ td.expiresIn = none →
        isTokenExpiredOrExpiringSoon (some td) now margin = true)
    ∧ (∀ c e, td.createdAt = some c → td.expiresIn = some e →
        (c + e - now ≤ margin → isTokenExpiredOrExpiringSoon (some td) now margin = true)
        ∧ (margin < c + e - now →
            isTokenExpiredOrExpiringSoon (some td) now margin = false)) := by
  refine ⟨rfl, ?_, ?_⟩
  · intro h
    unfold isTokenExpiredOrExpiringSoon
    rcases hE : td.expiresIn with _ | e <;> rcases hC : td.createdAt with _ | c <;>
      simp_all
  · intro c e hc he
    constructor <;> intro h
    · simp [isTokenExpiredOrExpiringSoon, hc, he, h]
    · simp [isTokenExpiredOrExpiringSoon, hc, he]
      linarith

/-- C2 witness: a record 50 s from expiry is not yet stale at a 40 s
margin. -/
theorem isStale_spec_witness :
    isTokenExpiredOrExpiringSoon (some ⟨some "a", none, some 50, some 100⟩) 100 40
      = false :=
  ((isStale_spec ⟨some "a", none, some 50, some 100⟩ 100 40).2.2 50 100 rfl rfl).2
    (by decide)

/-- A persisted record whose `created_at` (107200) is more than 3600 s
ahead of the local clock (100000) at load time, with the typical 6-hour
Bling lifetime `expires_in = 21600`. -/
def skewedFile : TokenData :=
  { accessToken := some "T", refreshToken := some "R",
    createdAt := some 107200, expiresIn := some 21600 }

/-- A manager whose token file holds `skewedFile`. -/
def skewedMgr : Mgr :=
  { emptyMgr with file := some skewedFile, extModified := true }


/-- C3: the clock-skew clamp does NOT force renewal.  Loading a record
whose `created_at` is 7200 s in the future rewrites `created_at` to
`now - 19000`, but with the lifetime 21600 s the clamped record keeps
`21600 - 19000 = 2600` s of remaining validity, which is above both the
600 s on-demand margin and the 1800 s background margin, so the validator
reports it fresh — the comment "para forçar renovação" (force renewal) and
the claim are contradicted. -/
theorem loadClamp_keeps_record_fresh :
    (loadTokenMgr skewedMgr 100000).1.tokenData
        = some { accessToken := some "T", refreshToken := some "R",
                 createdAt := some 81000, expiresIn := some 21600 }
    ∧ isTokenExpiredOrExpiringSoon (loadTokenMgr skewedMgr 100000).1.tokenData
        100000 600 = false
    ∧ isTokenExpiredOrExpiringSoon (loadTokenMgr skewedMgr 100000).1.tokenData
        100000 1800 = false := by
  decide

/-- C4: in the error state with `n >= 1` consecutive failures and the
current time within `min(15 * 2^(n-1), 120)` minutes of the last failure,
`refresh_token()` returns failure immediately: the state is unchanged and
the trace is empty, so in particular no network call is made. -/
theorem refreshToken_backoff_skip (cfg : Config) (m : Mgr)
    (oracle : List NetOutcome) (now t : Time)
    (herr : m.errorState = true) (hn : 1 ≤ m.consecutiveFailures)
    (ht : m.lastErrorTime = some t) (hb : m.backoffMinutes = 15)
    (hmax : cfg.maxBackoffMinutes = 120)
    (hwin : now - t ≤ 60 * min (15 * 2 ^ (m.consecutiveFailures - 1)) 120) :
    refreshToken cfg m oracle now = (some (false, m, oracle), []) := by
  have h2 : (2 : Int) ^ m.consecutiveFailures
      = 2 * 2 ^ (m.consecutiveFailures - 1) := by
    obtain ⟨k, hk⟩ := Nat.exists_eq_add_of_le hn
    rw [hk, Nat.add_sub_cancel_left, pow_add, pow_one]
  have key : 2 * (now - t) ≤ min ((15 : Int) * 60 * 2 ^ m.consecutiveFailures)
      (120 * 120) := by
    rcases le_total ((15 : Int) * 2 ^ (m.consecutiveFailures - 1)) 120 with hle | hge
    · rw [min_eq_left hle] at hwin
      have hmin : (15 : Int) * 60 * 2 ^ m.consecutiveFailures ≤ 120 * 120 := by
        rw [h2]; linarith
      rw [min_eq_left hmin, h2]; linarith
    · rw [min_eq_right hge] at hwin
      have hmin : (120 : Int) * 120 ≤ 15 * 60 * 2 ^ m.consecutiveFailures := by
        rw [h2]; linarith
      rw [min_eq_right hmin]; linarith
  have hnot : backoffElapsed cfg m (now - t) = false := by
    simp only [backoffElapsed, hb, hmax, decide_eq_false_iff_not, not_lt]
    exact key
  simp [refreshToken, shouldAttemptRecovery, herr, ht, hnot]

/-- The missing-data branch never returns `True`: its only success path is
a client-credentials exchange performed while already holding the lock,
which blocks at the store step. -/
theorem refreshNoToken_not_true (cfg : Config) (m : Mgr)
    (oracle : List NetOutcome) (now : Time) (m2 : Mgr) (o2 : List NetOutcome) :
    (refreshNoToken cfg m oracle now).1 ≠ some (true, m2, o2) := by
  intro h
  unfold refreshNoToken at h
  by_cases hf : m.consecutiveFailures = 0
  · rw [if_pos hf] at h
    rcases hC : tryClientCredentials cfg true
        { m with consecutiveFailures := 1, lastErrorTime := some now } oracle now
      with ⟨res, tr⟩
    rw [hC] at h
    rcases res with _ | ⟨b, mc, oc⟩
    · simp at h
    · cases b
      · dsimp only at h
        rcases hR : attemptTokenRecovery cfg true mc oc now with ⟨resR, trR⟩
        rw [hR] at h
        rcases resR with _ | ⟨mr, orr⟩ <;> simp at h
      · exact absurd (tryCC_held_no_true _ _ _ _ _ _ _ (by rw [hC])) (by simp)
  · rw [if_neg hf] at h
    simp at h

/-- Any `True` return of the tail of `refresh_token` passed through
`_save_token` (directly on a 200, or inside the client-credentials
fallback of the invalid-grant branch), which cleared the recovery state. -/
theorem refreshMain_true_cleared (cfg : Config) (m : Mgr)
    (oracle : List NetOutcome) (now : Time) (m2 : Mgr) (o2 : List NetOutcome)
    (h : (refreshMain cfg m oracle now).1 = some (true, m2, o2)) :
    recoveryCleared m2 := by
  unfold refreshMain at h
  rcases hL : refreshRetryLoop oracle with ⟨ro, oL, trL⟩
  rw [hL] at h
  rcases ro with _ | ⟨a, r, e⟩ | ig | _
  · dsimp only at h
    by_cases hA : cfg.maxFailuresBeforeAlert ≤ m.consecutiveFailures + 1
    · rw [if_pos hA] at h
      rcases hN : notifyTokenFailure cfg
          { m with
            consecutiveFailures := m.consecutiveFailures + 1,
            lastErrorTime := some now } now with ⟨mn, trn⟩
      rw [hN] at h
      simp at h
    · rw [if_neg hA] at h
      simp at h
  · dsimp only at h
    rw [saveToken_free] at h
    simp at h
    rw [← h.1]
    simp [recoveryCleared]
  · dsimp only at h
    cases ig
    · simp at h
    · rw [if_pos rfl] at h
      rcases hN : (if cfg.maxFailuresBeforeAlert ≤ m.consecutiveFailures + 1 then
          notifyTokenFailure cfg
            { m with
              consecutiveFailures := m.consecutiveFailures + 1,
              lastErrorTime := some now, errorState := true } now
        else
          ({ m with
             consecutiveFailures := m.consecutiveFailures + 1,
             lastErrorTime := some now, errorState := true }, []))
        with ⟨mn, trn⟩
      rw [hN] at h
      dsimp only at h
      rcases hC : tryClientCredentials cfg false mn oL now with ⟨res, trc⟩
      rw [hC] at h
      rcases res with _ | ⟨b, mc, oc⟩
      · simp at h
      · cases b
        · dsimp only at h
          rcases hR : attemptTokenRecovery cfg false mc oc now with ⟨resR, trR⟩
          rw [hR] at h
          rcases resR with _ | ⟨mr, orr⟩ <;> simp at h
        · simp at h
          have hcl := tryCC_true_cleared cfg false mn oL now mc oc (by rw [hC])
          rwa [h.1] at hcl
  · simp at h

/-- Any `True` return of `refresh_token` cleared the recovery state. -/
theorem refreshToken_true_cleared (cfg : Config) (m : Mgr)
    (oracle : List NetOutcome) (now : Time) (m2 : Mgr) (o2 : List NetOutcome)
    (h : (refreshToken cfg m oracle now).1 = some (true, m2, o2)) :
    recoveryCleared m2 := by
  unfold refreshToken at h
  rcases hS : shouldAttemptRecovery cfg m now with ⟨b, m0⟩
  rw [hS] at h
  cases b
  · simp at h
  · dsimp only at h
    rcases hT : m0.tokenData with _ | d
    · rw [hT] at h
      exact absurd h (refreshNoToken_not_true cfg m0 oracle now m2 o2)
    · rw [hT] at h
      dsimp only at h
      rcases hR : d.refreshToken with _ | rt
      · rw [hR] at h
        exact absurd h (refreshNoToken_not_true cfg m0 oracle now m2 o2)
      · rw [hR] at h
        dsimp only at h
        unfold refreshLongExpiredCheck at h
        rcases hc : d.createdAt with _ | c <;> rcases he : d.expiresIn with _ | e <;>
          rw [hc, he] at h <;> dsimp only at h
        case some.some =>
          by_cases h12 : c + e + 43200 < now
          · rw [if_pos h12] at h
            rcases hC : tryClientCredentials cfg true m0 oracle now with ⟨res, trc⟩
            rw [hC] at h
            rcases res with _ | ⟨bc, mc, oc⟩
            · simp at h
            · cases bc
              · dsimp only at h
                rcases hM : refreshMain cfg mc oc now with ⟨resM, trM⟩
                rw [hM] at h
                dsimp only at h
                exact refreshMain_true_cleared cfg mc oc now m2 o2 (by rw [hM, h])
              · exact absurd (tryCC_held_no_true _ _ _ _ _ _ _ (by rw [hC])) (by simp)
          · rw [if_neg h12] at h
            rcases hM : refreshMain cfg m0 oracle now with ⟨resM, trM⟩
            rw [hM] at h
            dsimp only at h
            exact refreshMain_true_cleared cfg m0 oracle now m2 o2 (by rw [hM, h])
        all_goals {
          rcases hM : refreshMain cfg m0 oracle now with ⟨resM, trM⟩
          rw [hM] at h
          dsimp only at h
          exact refreshMain_true_cleared cfg m0 oracle now m2 o2 (by rw [hM, h]) }

/-- A successful authorization-code exchange clears the recovery state
(`_save_token` reset plus the explicit reset in
`create_token_from_auth_code`). -/
theorem createToken_true_cleared (cfg : Config) (m : Mgr)
    (oracle : List NetOutcome) (now : Time) (m2 : Mgr) (o2 : List NetOutcome)
    (h : (createTokenFromAuthCode cfg m oracle now).1 = some (true, m2, o2)) :
    recoveryCleared m2 := by
  cases hW : cfg.hasWhatsapp <;> rcases oracle with _ | ⟨r, rest⟩ <;>
    first
      | (rcases r with ⟨a, rt, e⟩ | ig | _ <;>
          simp_all [createTokenFromAuthCode, popOutcome, saveToken] <;>
          simp [recoveryCleared, ← h.1])
      | simp_all [createTokenFromAuthCode, popOutcome, saveToken]

/-- Lemma: `_notify_token_failure` only ever touches `last_notification_time`. -/
theorem notify_preserves (cfg : Config) (m : Mgr) (now : Time) :
    (notifyTokenFailure cfg m now).1.errorState = m.errorState
    ∧ (notifyTokenFailure cfg m now).1.consecutiveFailures = m.consecutiveFailures
    ∧ (notifyTokenFailure cfg m now).1.tokenData = m.tokenData
    ∧ (notifyTokenFailure cfg m now).1.file = m.file := by
  unfold notifyTokenFailure notifySend
  rcases ht : m.lastNotificationTime with _ | t <;> simp only [ht] <;>
    (repeat' split) <;> simp

/-- A non-200 response (or a raised connection error) makes one single
credential-grant POST fail without touching the state. -/
theorem tryCC_fail_eq (cfg : Config) (held : Bool) (m : Mgr) (r : NetOutcome)
    (rest : List NetOutcome) (now : Time) (hc : cfg.hasCreds = true)
    (hr : r.isOk = false) :
    tryClientCredentials cfg held m (r :: rest) now
      = (some (false, m, rest), [.net .clientCredentials]) := by
  rcases r with ⟨a, rt, e⟩ | ig | _ <;>
    simp_all [tryClientCredentials, popOutcome, NetOutcome.isOk]

/-- The delete-after-10-failures last resort never blocks when the lock is
free and never touches `error_state` or the failure counter. -/
theorem recoveryDelete_props (cfg : Config) (m : Mgr) (now : Time) :
    ∃ m2 trd, recoveryDelete cfg false m now = (some m2, trd)
      ∧ m2.errorState = m.errorState
      ∧ m2.consecutiveFailures = m.consecutiveFailures := by
  unfold recoveryDelete
  split
  · rcases hN : notifyTokenFailure cfg { m with file := none, tokenData := none } now
      with ⟨m2, trn⟩
    have hp := notify_preserves cfg { m with file := none, tokenData := none } now
    rw [hN] at hp
    exact ⟨m2, _, rfl, hp.1, hp.2.1⟩
  · exact ⟨m, [], rfl, rfl, rfl⟩

/-- With no webhook configured and a failing credential-grant response,
`_attempt_token_recovery` consumes one oracle entry and preserves
`error_state` and the failure counter. -/
theorem recovery_fail_props (cfg : Config) (m : Mgr) (r3 : NetOutcome)
    (rest : List NetOutcome) (now : Time) (hc : cfg.hasCreds = true)
    (hw : cfg.hasWebhook = false) (h3 : r3.isOk = false) :
    ∃ m2 trd, attemptTokenRecovery cfg false m (r3 :: rest) now = (some (m2, rest), trd)
      ∧ m2.errorState = m.errorState
      ∧ m2.consecutiveFailures = m.consecutiveFailures := by
  unfold attemptTokenRecovery
  rw [tryCC_fail_eq cfg false m r3 rest now hc h3]
  dsimp only
  rw [if_neg (by simp [hw])]
  obtain ⟨m2, trd, hD, hE, hF⟩ := recoveryDelete_props cfg m now
  rw [hD]
  exact ⟨m2, _, rfl, hE, hF⟩

/-- Unfolding of `refresh_token` on the healthy, refresh-token-present,
not-long-expired path: the backoff gate passes, the missing-data branch is
skipped, the 12-hour heuristic does not fire, and control reaches the
refresh-grant exchange. -/
theorem refreshToken_healthy_eq (cfg : Config) (m : Mgr) (d : TokenData)
    (rt : String) (c : Time) (e : Int) (oracle : List NetOutcome) (now : Time)
    (herr : m.errorState = false) (hd : m.tokenData = some d)
    (hrt : d.refreshToken = some rt) (hca : d.createdAt = some c)
    (hei : d.expiresIn = some e) (h12 : ¬ (c + e + 43200 < now)) :
    refreshToken cfg m oracle now
      = ((refreshMain cfg m oracle now).1,
         [.acquire, .release, .acquire, .release] ++ (refreshMain cfg m oracle now).2) := by
  unfold refreshToken
  rw [shouldAttempt_healthy cfg m now herr]
  dsimp only
  rw [hd]
  dsimp only
  rw [hrt]
  dsimp only
  unfold refreshLongExpiredCheck
  rw [hca, hei]
  dsimp only
  rw [if_neg h12]

/-- One non-invalid-grant HTTP error response: the failure is counted, no
retry, no escalation. -/
theorem refreshMain_httpFalse (cfg : Config) (m : Mgr) (rest : List NetOutcome)
    (now : Time) :
    refreshMain cfg m (.httpError false :: rest) now
      = (some (false,
          { m with
            consecutiveFailures := m.consecutiveFailures + 1,
            lastErrorTime := some now }, rest),
         [.net .refreshGrant]) := rfl

@[simp] theorem netCalls_nil : netCalls [] = [] := rfl

@[simp] theorem netCalls_append (l1 l2 : List Ev) :
    netCalls (l1 ++ l2) = netCalls l1 ++ netCalls l2 :=
  List.filterMap_append l1 l2 _

@[simp] theorem netCalls_net (g : Grant) (tl : List Ev) :
    netCalls (Ev.net g :: tl) = g :: netCalls tl := rfl

@[simp] theorem netCalls_acquire (tl : List Ev) :
    netCalls (Ev.acquire :: tl) = netCalls tl := rfl

@[simp] theorem netCalls_release (tl : List Ev) :
    netCalls (Ev.release :: tl) = netCalls tl := rfl

@[simp] theorem netCalls_webhook (tl : List Ev) :
    netCalls (Ev.webhook :: tl) = netCalls tl := rfl

@[simp] theorem netCalls_sleep (n : Nat) (tl : List Ev) :
    netCalls (Ev.sleepSec n :: tl) = netCalls tl := rfl

@[simp] theorem netCalls_notifyFailure (tl : List Ev) :
    netCalls (Ev.notifyFailure :: tl) = netCalls tl := rfl

@[simp] theorem netCalls_notifySuccess (tl : List Ev) :
    netCalls (Ev.notifySuccess :: tl) = netCalls tl := rfl

@[simp] theorem sleepCalls_nil : sleepCalls [] = [] := rfl

@[simp] theorem sleepCalls_append (l1 l2 : List Ev) :
    sleepCalls (l1 ++ l2) = sleepCalls l1 ++ sleepCalls l2 :=
  List.filterMap_append l1 l2 _

@[simp] theorem sleepCalls_net (g : Grant) (tl : List Ev) :
    sleepCalls (Ev.net g :: tl) = sleepCalls tl := rfl

@[simp] theorem sleepCalls_acquire (tl : List Ev) :
    sleepCalls (Ev.acquire :: tl) = sleepCalls tl := rfl

@[simp] theorem sleepCalls_release (tl : List Ev) :
    sleepCalls (Ev.release :: tl) = sleepCalls tl := rfl

@[simp] theorem sleepCalls_webhook (tl : List Ev) :
    sleepCalls (Ev.webhook :: tl) = sleepCalls tl := rfl

@[simp] theorem sleepCalls_sleep (n : Nat) (tl : List Ev) :
    sleepCalls (Ev.sleepSec n :: tl) = n :: sleepCalls tl := rfl

@[simp] theorem sleepCalls_notifyFailure (tl : List Ev) :
    sleepCalls (Ev.notifyFailure :: tl) = sleepCalls tl := rfl

@[simp] theorem sleepCalls_notifySuccess (tl : List Ev) :
    sleepCalls (Ev.notifySuccess :: tl) = sleepCalls tl := rfl

/-- Lemma: `_notify_token_failure` performs no token-endpoint call and no sleep. -/
theorem notify_no_net (cfg : Config) (m : Mgr) (now : Time) :
    netCalls (notifyTokenFailure cfg m now).2 = []
    ∧ sleepCalls (notifyTokenFailure cfg m now).2 = [] := by
  unfold notifyTokenFailure notifySend
  rcases m.lastNotificationTime with _ | t <;> (repeat' split) <;> simp

/-- Lemma: `_try_client_credentials` makes no refresh-grant call and never
sleeps, whatever the transport returns. -/
theorem tryCC_no_refresh_calls (cfg : Config) (held : Bool) (m : Mgr)
    (oracle : List NetOutcome) (now : Time) :
    (netCalls (tryClientCredentials cfg held m oracle now).2).count Grant.refreshGrant = 0
    ∧ sleepCalls (tryClientCredentials cfg held m oracle now).2 = [] := by
  cases hC : cfg.hasCreds <;> cases held <;> rcases oracle with _ | ⟨r, rest⟩ <;>
    first
      | (rcases r with ⟨a, rt, e⟩ | ig | _ <;>
          simp [tryClientCredentials, popOutcome, saveToken, hC])
      | simp [tryClientCredentials, popOutcome, saveToken, hC]

/-- With credentials configured, `_try_client_credentials` makes exactly
one credential-grant POST — no retry loop, no sleeps — whatever the
transport returns. -/
theorem tryCC_single_post (cfg : Config) (held : Bool) (m : Mgr)
    (oracle : List NetOutcome) (now : Time) (hc : cfg.hasCreds = true) :
    netCalls (tryClientCredentials cfg held m oracle now).2 = [Grant.clientCredentials]
    ∧ sleepCalls (tryClientCredentials cfg held m oracle now).2 = [] := by
  cases held <;> rcases oracle with _ | ⟨r, rest⟩ <;>
    first
      | (rcases r with ⟨a, rt, e⟩ | ig | _ <;>
          simp [tryClientCredentials, popOutcome, saveToken, hc])
      | simp [tryClientCredentials, popOutcome, saveToken, hc]

/-- The delete last resort performs no token-endpoint call and no sleep. -/
theorem recoveryDelete_no_net (cfg : Config) (held : Bool) (m : Mgr) (now : Time) :
    netCalls (recoveryDelete cfg held m now).2 = []
    ∧ sleepCalls (recoveryDelete cfg held m now).2 = [] := by
  unfold recoveryDelete
  split
  · cases held
    · rcases hN : notifyTokenFailure cfg { m with file := none, tokenData := none } now
        with ⟨m2, trn⟩
      have hno := notify_no_net cfg { m with file := none, tokenData := none } now
      rw [hN] at hno
      dsimp only at hno
      simp [hno.1, hno.2]
    · simp
  · simp

/-- Lemma: `_attempt_token_recovery` makes no refresh-grant call and never
sleeps. -/
theorem recovery_no_refresh_calls (cfg : Config) (held : Bool) (m : Mgr)
    (oracle : List NetOutcome) (now : Time) :
    (netCalls (attemptTokenRecovery cfg held m oracle now).2).count Grant.refreshGrant = 0
    ∧ sleepCalls (attemptTokenRecovery cfg held m oracle now).2 = [] := by
  unfold attemptTokenRecovery
  rcases hC : tryClientCredentials cfg held m oracle now with ⟨res, trc⟩
  have htc := tryCC_no_refresh_calls cfg held m oracle now
  rw [hC] at htc
  dsimp only at htc
  rcases res with _ | ⟨b, mc, oc⟩
  · simpa using htc
  · cases b
    · dsimp only
      split
      · split
        · simp [htc.1, htc.2]
        · have hd := recoveryDelete_no_net cfg held mc now
          rcases hD : recoveryDelete cfg held mc now with ⟨resd, trd⟩
          rw [hD] at hd
          dsimp only at hd
          rcases resd with _ | m2 <;>
            simp [htc.1, htc.2, hd.1, hd.2]
      · have hd := recoveryDelete_no_net cfg held mc now
        rcases hD : recoveryDelete cfg held mc now with ⟨resd, trd⟩
        rw [hD] at hd
        dsimp only at hd
        rcases resd with _ | m2 <;>
          simp [htc.1, htc.2, hd.1, hd.2]
    · simpa using htc

/-- A 200 on the first refresh-grant attempt: one POST, store with
`created_at = now`, save. -/
theorem refreshMain_ok (cfg : Config) (m : Mgr) (a : String) (r : Option String)
    (e : Int) (rest : List NetOutcome) (now : Time) :
    refreshMain cfg m (.ok a r e :: rest) now
      = (some (true,
          { m with
            tokenData := some (respToData a r e now),
            file := some (respToData a r e now),
            errorState := false, consecutiveFailures := 0,
            lastErrorTime := none, backoffMinutes := 15 }, rest),
         [.net .refreshGrant, .acquire, .release, .acquire, .release]) := rfl

/-- A connection error, a 2 s sleep, then a 200 on the second attempt. -/
theorem refreshMain_conn_ok (cfg : Config) (m : Mgr) (a : String)
    (r : Option String) (e : Int) (rest : List NetOutcome) (now : Time) :
    refreshMain cfg m (.connError :: .ok a r e :: rest) now
      = (some (true,
          { m with
            tokenData := some (respToData a r e now),
            file := some (respToData a r e now),
            errorState := false, consecutiveFailures := 0,
            lastErrorTime := none, backoffMinutes := 15 }, rest),
         [.net .refreshGrant, .sleepSec 2, .net .refreshGrant,
          .acquire, .release, .acquire, .release]) := rfl

/-- Two connection errors, sleeps of 2 s and 4 s, then a 200 on the third
attempt. -/
theorem refreshMain_conn2_ok (cfg : Config) (m : Mgr) (a : String)
    (r : Option String) (e : Int) (rest : List NetOutcome) (now : Time) :
    refreshMain cfg m (.connError :: .connError :: .ok a r e :: rest) now
      = (some (true,
          { m with
            tokenData := some (respToData a r e now),
            file := some (respToData a r e now),
            errorState := false, consecutiveFailures := 0,
            lastErrorTime := none, backoffMinutes := 15 }, rest),
         [.net .refreshGrant, .sleepSec 2, .net .refreshGrant, .sleepSec 4,
          .net .refreshGrant, .acquire, .release, .acquire, .release]) := rfl

/-- A successful `_try_client_credentials` stored the response with
`created_at = now`. -/
theorem tryCC_true_created (cfg : Config) (held : Bool) (m : Mgr)
    (oracle : List NetOutcome) (now : Time) (m2 : Mgr) (o2 : List NetOutcome)
    (h : (tryClientCredentials cfg held m oracle now).1 = some (true, m2, o2)) :
    m2.tokenData.bind TokenData.createdAt = some now := by
  cases hC : cfg.hasCreds <;> cases held <;> rcases oracle with _ | ⟨r, rest⟩ <;>
    first
      | (rcases r with ⟨a, rt, e⟩ | ig | _ <;>
          simp_all [tryClientCredentials, popOutcome, saveToken] <;>
          simp [← h.1, respToData])
      | simp_all [tryClientCredentials, popOutcome, saveToken]

@[simp] theorem notifyCount_nil : notifyCount [] = 0 := rfl

@[simp] theorem notifyCount_append (l1 l2 : List Ev) :
    notifyCount (l1 ++ l2) = notifyCount l1 + notifyCount l2 :=
  List.countP_append _ l1 l2

@[simp] theorem notifyCount_notifyFailure (tl : List Ev) :
    notifyCount (Ev.notifyFailure :: tl) = notifyCount tl + 1 := by
  simp [notifyCount]

@[simp] theorem notifyCount_net (g : Grant) (tl : List Ev) :
    notifyCount (Ev.net g :: tl) = notifyCount tl := by
  simp [notifyCount]

@[simp] theorem notifyCount_acquire (tl : List Ev) :
    notifyCount (Ev.acquire :: tl) = notifyCount tl := by
  simp [notifyCount]

@[simp] theorem notifyCount_release (tl : List Ev) :
    notifyCount (Ev.release :: tl) = notifyCount tl := by
  simp [notifyCount]

@[simp] theorem notifyCount_webhook (tl : List Ev) :
    notifyCount (Ev.webhook :: tl) = notifyCount tl := by
  simp [notifyCount]

@[simp] theorem notifyCount_sleep (n : Nat) (tl : List Ev) :
    notifyCount (Ev.sleepSec n :: tl) = notifyCount tl := by
  simp [notifyCount]

@[simp] theorem notifyCount_notifySuccess (tl : List Ev) :
    notifyCount (Ev.notifySuccess :: tl) = notifyCount tl := by
  simp [notifyCount]

/-- Within `min_notification_interval` minutes of the last sent
notification, `_notify_token_failure` does nothing at all. -/
theorem notify_suppressed (cfg : Config) (m : Mgr) (now tN : Time)
    (htN : m.lastNotificationTime = some tN)
    (hlim : now - tN < cfg.minNotificationInterval * 60) :
    notifyTokenFailure cfg m now = (m, []) := by
  unfold notifyTokenFailure
  rw [htN]
  dsimp only
  rw [if_pos hlim]

/-- With no prior notification and a configured WhatsApp client, exactly
one alert send is attempted. -/
theorem notify_first_count (cfg : Config) (m : Mgr) (now : Time)
    (hnone : m.lastNotificationTime = none) (hwapp : cfg.hasWhatsapp = true) :
    notifyCount (notifyTokenFailure cfg m now).2 = 1 := by
  unfold notifyTokenFailure notifySend
  rw [hnone]
  cases hok : cfg.whatsappOk <;> simp [hwapp]

/-- With at most 10 recorded failures, no webhook, and a failing
credential-grant response, `_attempt_token_recovery` sends no alert. -/
theorem recovery_notifyCount_small (cfg : Config) (m : Mgr) (r3 : NetOutcome)
    (rest : List NetOutcome) (now : Time) (hc : cfg.hasCreds = true)
    (hw : cfg.hasWebhook = false) (h3 : r3.isOk = false)
    (hsmall : m.consecutiveFailures ≤ 10) :
    notifyCount (attemptTokenRecovery cfg false m (r3 :: rest) now).2 = 0 := by
  unfold attemptTokenRecovery
  rw [tryCC_fail_eq cfg false m r3 rest now hc h3]
  dsimp only
  rw [if_neg (by simp [hw])]
  unfold recoveryDelete
  rw [if_neg (by simp; intro hgt; omega)]
  simp

/-- Under the notification rate limit, the delete last resort sends no
alert either. -/
theorem recoveryDelete_notifyCount_suppressed (cfg : Config) (m : Mgr)
    (now tN : Time) (htN : m.lastNotificationTime = some tN)
    (hlim : now - tN < cfg.minNotificationInterval * 60) :
    notifyCount (recoveryDelete cfg false m now).2 = 0 := by
  unfold recoveryDelete
  split
  · rw [notify_suppressed cfg { m with file := none, tokenData := none } now tN
      (by simpa using htN) hlim]
    simp
  · simp

/-- Under the notification rate limit, no alert is sent anywhere inside
`_attempt_token_recovery` either. -/
theorem recovery_notifyCount_suppressed (cfg : Config) (m : Mgr) (r3 : NetOutcome)
    (rest : List NetOutcome) (now tN : Time) (hc : cfg.hasCreds = true)
    (hw : cfg.hasWebhook = false) (h3 : r3.isOk = false)
    (htN : m.lastNotificationTime = some tN)
    (hlim : now - tN < cfg.minNotificationInterval * 60) :
    notifyCount (attemptTokenRecovery cfg false m (r3 :: rest) now).2 = 0 := by
  unfold attemptTokenRecovery
  rw [tryCC_fail_eq cfg false m r3 rest now hc h3]
  dsimp only
  rw [if_neg (by simp [hw])]
  rcases hD : recoveryDelete cfg false m now with ⟨resd, trd⟩
  have hdc := recoveryDelete_notifyCount_suppressed cfg m now tN htN hlim
  rw [hD] at hdc
  dsimp only at hdc
  rcases resd with _ | m2 <;> simp [hdc]

/-- Unfolding of `refresh_token` past a passing backoff gate (`m0` is the
state after `_should_attempt_recovery`, which may have initialised
`last_error_time`), with a refresh token present and the record not
long-expired. -/
theorem refreshToken_attempt_eq (cfg : Config) (m m0 : Mgr) (d : TokenData)
    (rt : String) (c : Time) (e : Int) (oracle : List NetOutcome) (now : Time)
    (hS : shouldAttemptRecovery cfg m now = (true, m0))
    (hd : m0.tokenData = some d) (hrt : d.refreshToken = some rt)
    (hca : d.createdAt = some c) (hei : d.expiresIn = some e)
    (h12 : ¬ (c + e + 43200 < now)) :
    refreshToken cfg m oracle now
      = ((refreshMain cfg m0 oracle now).1,
         [.acquire, .release, .acquire, .release] ++ (refreshMain cfg m0 oracle now).2) := by
  unfold refreshToken
  rw [hS]
  dsimp only
  rw [hd]
  dsimp only
  rw [hrt]
  dsimp only
  unfold refreshLongExpiredCheck
  rw [hca, hei]
  dsimp only
  rw [if_neg h12]

/-- The error-state manager of the C4 witness: one failure recorded at
time 0. -/
def backoffMgr : Mgr :=
  { emptyMgr with
    errorState := true, consecutiveFailures := 1, lastErrorTime := some 0 }

/-- C4 witness: at time 900 (exactly the 15-minute window after the
failure at time 0), `refresh_token()` skips. -/
theorem refreshToken_backoff_skip_witness :
    refreshToken defaultConfig backoffMgr [] 900
      = (some (false, backoffMgr, []), []) :=
  refreshToken_backoff_skip defaultConfig backoffMgr [] 900 0 (by decide) (by decide)
    (by decide) (by decide) (by decide) (by decide)

/-- The C5 counterexample manager: healthy and holding a renewable record,
but with a notification recorded at time 7. -/
def notifiedMgr : Mgr :=
  { staleMgr with lastNotificationTime := some 7 }

/-- C5 counterexample: a successful refresh-grant renewal returns `True`
yet leaves `last_notification_time = 7` — nothing in `_save_token` or any
success path ever clears it, refuting the claim that `last_notification_at`
is unset after every successful renewal. -/
theorem refreshSuccess_keeps_notification_time :
    ((refreshToken defaultConfig notifiedMgr [.ok "N" (some "R2") 21600] 1000).1.map
        fun r => r.1) = some true
    ∧ ((refreshToken defaultConfig notifiedMgr [.ok "N" (some "R2") 21600] 1000).1.bind
        fun r => r.2.1.lastNotificationTime) = some 7 := by
  decide

/-- C5 (amended): after every successful renewal of any kind — refresh
grant, credential grant, or authorization-code exchange — the
failure-tracking recovery fields are cleared (`consecutive_failures = 0`,
`error_state = False`, `last_error_time = None`, `backoff_minutes` back at
its 15-minute base); `last_notification_time`, however, is NOT cleared
(see `refreshSuccess_keeps_notification_time`). -/
theorem renewalSuccess_clears_recovery_state (cfg : Config) (now : Time) :
    (∀ m oracle m2 o2, (refreshToken cfg m oracle now).1 = some (true, m2, o2) →
      recoveryCleared m2)
    ∧ (∀ held m oracle m2 o2,
        (tryClientCredentials cfg held m oracle now).1 = some (true, m2, o2) →
        recoveryCleared m2)
    ∧ (∀ m oracle m2 o2,
        (createTokenFromAuthCode cfg m oracle now).1 = some (true, m2, o2) →
        recoveryCleared m2) :=
  ⟨fun m oracle m2 o2 h => refreshToken_true_cleared cfg m oracle now m2 o2 h,
   fun held m oracle m2 o2 h => tryCC_true_cleared cfg held m oracle now m2 o2 h,
   fun m oracle m2 o2 h => createToken_true_cleared cfg m oracle now m2 o2 h⟩

/-- C5 witness: a concrete successful credential-grant renewal ends with
the recovery fields cleared. -/
theorem renewalSuccess_clears_recovery_state_witness :
    recoveryCleared
      { emptyMgr with
        tokenData := some (respToData "N" none 21600 5),
        file := some (respToData "N" none 21600 5) } :=
  (renewalSuccess_clears_recovery_state defaultConfig 5).2.1 false emptyMgr
    [.ok "N" none 21600]
    { emptyMgr with
      tokenData := some (respToData "N" none 21600 5),
      file := some (respToData "N" none 21600 5) } [] (by decide)

/-- C6 counterexample: with a healthy manager (zero consecutive failures),
a renewal failure whose HTTP error body is not `invalid_grant` returns
failure and increments the failure counter, but `error_state` stays
`False` — the claimed healthy-to-error transition on "any renewal failure"
does not happen. -/
theorem plainFailure_keeps_healthy :
    ((refreshToken defaultConfig staleMgr [.httpError false] 1000).1.map
        fun r => (r.1, r.2.1.errorState, r.2.1.consecutiveFailures))
      = some (false, false, 1) := by
  decide

/-- C6 (amended): the error state is entered only on an invalid-grant
classification.  A failed renewal attempt with a non-invalid-grant HTTP
error increments `consecutive_failures` and records the failure time but
leaves `error_state` unchanged (false); an invalid-grant failure sets
`error_state = True` immediately, regardless of the prior failure count
(it stays set at return when the credential-grant fallback and recovery
also fail). -/
theorem errorState_transitions (cfg : Config) (m : Mgr) (d : TokenData)
    (rt : String) (c : Time) (e : Int) (now : Time)
    (hc : cfg.hasCreds = true) (hw : cfg.hasWebhook = false)
    (herr : m.errorState = false) (hd : m.tokenData = some d)
    (hrt : d.refreshToken = some rt) (hca : d.createdAt = some c)
    (hei : d.expiresIn = some e) (h12 : ¬ (c + e + 43200 < now)) :
    (∀ rest, refreshToken cfg m (.httpError false :: rest) now
      = (some (false,
          { m with
            consecutiveFailures := m.consecutiveFailures + 1,
            lastErrorTime := some now }, rest),
         [.acquire, .release, .acquire, .release, .net .refreshGrant]))
    ∧ (∀ r2 r3 rest, r2.isOk = false → r3.isOk = false →
        ∃ m2, (refreshToken cfg m (.httpError true :: r2 :: r3 :: rest) now).1
            = some (false, m2, rest)
          ∧ m2.errorState = true
          ∧ m2.consecutiveFailures = m.consecutiveFailures + 1) := by
  constructor
  · intro rest
    rw [refreshToken_healthy_eq cfg m d rt c e _ now herr hd hrt hca hei h12,
      refreshMain_httpFalse]
    rfl
  · intro r2 r3 rest h2 h3
    rw [refreshToken_healthy_eq cfg m d rt c e _ now herr hd hrt hca hei h12]
    dsimp only
    unfold refreshMain
    rw [show refreshRetryLoop (.httpError true :: r2 :: r3 :: rest)
          = (some (.httpError true), r2 :: r3 :: rest, [.net .refreshGrant]) from rfl]
    dsimp only
    rw [if_pos rfl]
    by_cases hA : cfg.maxFailuresBeforeAlert ≤ m.consecutiveFailures + 1
    · rw [if_pos hA]
      rcases hN : notifyTokenFailure cfg
          { m with
            consecutiveFailures := m.consecutiveFailures + 1,
            lastErrorTime := some now, errorState := true } now with ⟨mn, trn⟩
      have hp := notify_preserves cfg
          { m with
            consecutiveFailures := m.consecutiveFailures + 1,
            lastErrorTime := some now, errorState := true } now
      rw [hN] at hp
      dsimp only
      rw [tryCC_fail_eq cfg false mn r2 (r3 :: rest) now hc h2]
      dsimp only
      obtain ⟨m2, trd, hD, hE, hF⟩ := recovery_fail_props cfg mn r3 rest now hc hw h3
      rw [hD]
      dsimp only
      exact ⟨m2, rfl, by rw [hE, hp.1], by rw [hF, hp.2.1]⟩
    · rw [if_neg hA]
      dsimp only
      rw [tryCC_fail_eq cfg false
        { m with
          consecutiveFailures := m.consecutiveFailures + 1,
          lastErrorTime := some now, errorState := true } r2 (r3 :: rest) now hc h2]
      dsimp only
      obtain ⟨m2, trd, hD, hE, hF⟩ := recovery_fail_props cfg
        { m with
          consecutiveFailures := m.consecutiveFailures + 1,
          lastErrorTime := some now, errorState := true } r3 rest now hc hw h3
      rw [hD]
      dsimp only
      exact ⟨m2, rfl, by rw [hE], by rw [hF]⟩

/-- C6 witness: the non-invalid-grant arm of `errorState_transitions`
evaluated on the concrete stale manager. -/
theorem errorState_transitions_witness :
    refreshToken defaultConfig staleMgr [.httpError false] 1000
      = (some (false,
          { staleMgr with consecutiveFailures := 1, lastErrorTime := some 1000 }, []),
         [.acquire, .release, .acquire, .release, .net .refreshGrant]) :=
  (errorState_transitions defaultConfig staleMgr staleTokenData "R" 0 1100 1000
      (by decide) (by decide) (by decide) (by decide) (by decide) (by decide)
      (by decide) (by decide)).1 []

/-- C7 counterexample: `_try_client_credentials` does NOT retry on a
connection error.  With the transport failing once and ready to answer 200
on a second attempt, the method returns failure after a single POST and no
backoff sleep — refuting "both renewal strategies retry their network call
up to 3 times". -/
theorem tryCC_no_retry_on_connError :
    (tryClientCredentials defaultConfig false emptyMgr
        [.connError, .ok "N" none 3600] 5).1
      = some (false, emptyMgr, [.ok "N" none 3600])
    ∧ netCalls (tryClientCredentials defaultConfig false emptyMgr
        [.connError, .ok "N" none 3600] 5).2 = [.clientCredentials]
    ∧ sleepCalls (tryClientCredentials defaultConfig false emptyMgr
        [.connError, .ok "N" none 3600] 5).2 = [] := by
  decide

/-- C7 (amended): the refresh-grant strategy retries its POST up to 3 times
with sleeps of 2 s then 4 s on connection/timeout errors only and never
retries an HTTP error response; the credential-grant strategy makes exactly
one POST with no retry and no sleep; both strategies stamp the stored
record with `created_at = now` on success. -/
theorem renewalStrategies_retry_spec (cfg : Config) (m : Mgr) (d : TokenData)
    (rt : String) (c : Time) (e : Int) (now : Time)
    (hc : cfg.hasCreds = true) (herr : m.errorState = false)
    (hd : m.tokenData = some d) (hrt : d.refreshToken = some rt)
    (hca : d.createdAt = some c) (hei : d.expiresIn = some e)
    (h12 : ¬ (c + e + 43200 < now)) :
    (∀ a r ei rest,
      netCalls (refreshToken cfg m (.ok a r ei :: rest) now).2 = [Grant.refreshGrant]
      ∧ sleepCalls (refreshToken cfg m (.ok a r ei :: rest) now).2 = []
      ∧ ((refreshToken cfg m (.ok a r ei :: rest) now).1.bind
          fun res => res.2.1.tokenData.bind TokenData.createdAt) = some now)
    ∧ (∀ a r ei rest,
      netCalls (refreshToken cfg m (.connError :: .ok a r ei :: rest) now).2
        = [Grant.refreshGrant, Grant.refreshGrant]
      ∧ sleepCalls (refreshToken cfg m (.connError :: .ok a r ei :: rest) now).2 = [2]
      ∧ ((refreshToken cfg m (.connError :: .ok a r ei :: rest) now).1.bind
          fun res => res.2.1.tokenData.bind TokenData.createdAt) = some now)
    ∧ (∀ a r ei rest,
      netCalls (refreshToken cfg m
          (.connError :: .connError :: .ok a r ei :: rest) now).2
        = [Grant.refreshGrant, Grant.refreshGrant, Grant.refreshGrant]
      ∧ sleepCalls (refreshToken cfg m
          (.connError :: .connError :: .ok a r ei :: rest) now).2 = [2, 4]
      ∧ ((refreshToken cfg m
          (.connError :: .connError :: .ok a r ei :: rest) now).1.bind
          fun res => res.2.1.tokenData.bind TokenData.createdAt) = some now)
    ∧ (∀ rest,
      netCalls (refreshToken cfg m
          (.connError :: .connError :: .connError :: rest) now).2
        = [Grant.refreshGrant, Grant.refreshGrant, Grant.refreshGrant]
      ∧ sleepCalls (refreshToken cfg m
          (.connError :: .connError :: .connError :: rest) now).2 = [2, 4]
      ∧ ((refreshToken cfg m
          (.connError :: .connError :: .connError :: rest) now).1.map
          fun res => res.1) = some false)
    ∧ (∀ b rest,
      (netCalls (refreshToken cfg m (.httpError b :: rest) now).2).count
          Grant.refreshGrant = 1
      ∧ sleepCalls (refreshToken cfg m (.httpError b :: rest) now).2 = [])
    ∧ (∀ held mm oracle,
      netCalls (tryClientCredentials cfg held mm oracle now).2
          = [Grant.clientCredentials]
      ∧ sleepCalls (tryClientCredentials cfg held mm oracle now).2 = [])
    ∧ (∀ held mm oracle m2 o2,
      (tryClientCredentials cfg held mm oracle now).1 = some (true, m2, o2) →
      m2.tokenData.bind TokenData.createdAt = some now) := by
  refine ⟨?_, ?_, ?_, ?_, ?_, ?_, ?_⟩
  · intro a r ei rest
    rw [refreshToken_healthy_eq cfg m d rt c e _ now herr hd hrt hca hei h12,
      refreshMain_ok]
    refine ⟨by simp, by simp, by simp [respToData]⟩
  · intro a r ei rest
    rw [refreshToken_healthy_eq cfg m d rt c e _ now herr hd hrt hca hei h12,
      refreshMain_conn_ok]
    refine ⟨by simp, by simp, by simp [respToData]⟩
  · intro a r ei rest
    rw [refreshToken_healthy_eq cfg m d rt c e _ now herr hd hrt hca hei h12,
      refreshMain_conn2_ok]
    refine ⟨by simp, by simp, by simp [respToData]⟩
  · intro rest
    rw [refreshToken_healthy_eq cfg m d rt c e _ now herr hd hrt hca hei h12]
    unfold refreshMain
    rw [show refreshRetryLoop (.connError :: .connError :: .connError :: rest)
          = (none, rest,
             [.net .refreshGrant, .sleepSec 2, .net .refreshGrant, .sleepSec 4,
              .net .refreshGrant]) from rfl]
    dsimp only
    by_cases hA : cfg.maxFailuresBeforeAlert ≤ m.consecutiveFailures + 1
    · rw [if_pos hA]
      rcases hN : notifyTokenFailure cfg
          { m with
            consecutiveFailures := m.consecutiveFailures + 1,
            lastErrorTime := some now } now with ⟨mn, trn⟩
      have hno := notify_no_net cfg
          { m with
            consecutiveFailures := m.consecutiveFailures + 1,
            lastErrorTime := some now } now
      rw [hN] at hno
      dsimp only at hno
      refine ⟨by simp [hno.1], by simp [hno.2], by simp⟩
    · rw [if_neg hA]
      refine ⟨by simp, by simp, by simp⟩
  · intro b rest
    rw [refreshToken_healthy_eq cfg m d rt c e _ now herr hd hrt hca hei h12]
    cases b
    · rw [refreshMain_httpFalse]
      exact ⟨by simp, by simp⟩
    · unfold refreshMain
      rw [show refreshRetryLoop (.httpError true :: rest)
            = (some (.httpError true), rest, [.net .refreshGrant]) from rfl]
      dsimp only
      rw [if_pos rfl]
      by_cases hA : cfg.maxFailuresBeforeAlert ≤ m.consecutiveFailures + 1
      · rw [if_pos hA]
        rcases hN : notifyTokenFailure cfg
            { m with
              consecutiveFailures := m.consecutiveFailures + 1,
              lastErrorTime := some now, errorState := true } now with ⟨mn, trn⟩
        have hno := notify_no_net cfg
            { m with
              consecutiveFailures := m.consecutiveFailures + 1,
              lastErrorTime := some now, errorState := true } now
        rw [hN] at hno
        dsimp only at hno
        dsimp only
        rcases hC : tryClientCredentials cfg false mn rest now with ⟨resc, trc⟩
        have htc := tryCC_no_refresh_calls cfg false mn rest now
        rw [hC] at htc
        dsimp only at htc
        rcases resc with _ | ⟨bc, mc, oc⟩
        · exact ⟨by simp [hno.1, htc.1], by simp [hno.2, htc.2]⟩
        · cases bc
          · dsimp only
            rcases hR : attemptTokenRecovery cfg false mc oc now with ⟨resr, trr⟩
            have hrr := recovery_no_refresh_calls cfg false mc oc now
            rw [hR] at hrr
            dsimp only at hrr
            rcases resr with _ | ⟨mr, orr⟩ <;>
              exact ⟨by simp [hno.1, htc.1, hrr.1], by simp [hno.2, htc.2, hrr.2]⟩
          · exact ⟨by simp [hno.1, htc.1], by simp [hno.2, htc.2]⟩
      · rw [if_neg hA]
        dsimp only
        rcases hC : tryClientCredentials cfg false
            { m with
              consecutiveFailures := m.consecutiveFailures + 1,
              lastErrorTime := some now, errorState := true } rest now with ⟨resc, trc⟩
        have htc := tryCC_no_refresh_calls cfg false
            { m with
              consecutiveFailures := m.consecutiveFailures + 1,
              lastErrorTime := some now, errorState := true } rest now
        rw [hC] at htc
        dsimp only at htc
        rcases resc with _ | ⟨bc, mc, oc⟩
        · exact ⟨by simp [htc.1], by simp [htc.2]⟩
        · cases bc
          · dsimp only
            rcases hR : attemptTokenRecovery cfg false mc oc now with ⟨resr, trr⟩
            have hrr := recovery_no_refresh_calls cfg false mc oc now
            rw [hR] at hrr
            dsimp only at hrr
            rcases resr with _ | ⟨mr, orr⟩ <;>
              exact ⟨by simp [htc.1, hrr.1], by simp [htc.2, hrr.2]⟩
          · exact ⟨by simp [htc.1], by simp [htc.2]⟩
  · intro held mm oracle
    exact tryCC_single_post cfg held mm oracle now hc
  · intro held mm oracle m2 o2 h
    exact tryCC_true_created cfg held mm oracle now m2 o2 h

/-- C7 witness: a first-attempt 200 renewal on the concrete stale manager
makes exactly one refresh-grant call. -/
theorem renewalStrategies_retry_spec_witness :
    netCalls (refreshToken defaultConfig staleMgr
        [.ok "N" (some "R2") 21600] 1000).2 = [Grant.refreshGrant] :=
  ((renewalStrategies_retry_spec defaultConfig staleMgr staleTokenData "R" 0 1100 1000
      (by decide) (by decide) (by decide) (by decide) (by decide) (by decide)
      (by decide)).1 "N" (some "R2") 21600 []).1

/-- C8: when the stored record's declared expiry lies more than 43200 s
(12 hours) in the past, `refresh_token()` attempts the credential-grant
exchange first: the first token-endpoint call of the run is
`client_credentials`, whatever the transport answers. -/
theorem longExpired_cc_first (cfg : Config) (m : Mgr) (d : TokenData)
    (rt : String) (c : Time) (e : Int) (oracle : List NetOutcome) (now : Time)
    (hc : cfg.hasCreds = true) (herr : m.errorState = false)
    (hd : m.tokenData = some d) (hrt : d.refreshToken = some rt)
    (hca : d.createdAt = some c) (hei : d.expiresIn = some e)
    (h12 : c + e + 43200 < now) :
    (netCalls (refreshToken cfg m oracle now).2).head?
      = some Grant.clientCredentials := by
  unfold refreshToken
  rw [shouldAttempt_healthy cfg m now herr]
  dsimp only
  rw [hd]
  dsimp only
  rw [hrt]
  dsimp only
  unfold refreshLongExpiredCheck
  rw [hca, hei]
  dsimp only
  rw [if_pos h12]
  rcases oracle with _ | ⟨r, rest⟩
  · rcases hM : refreshMain cfg m [] now with ⟨res, tr2⟩
    simp [tryClientCredentials, popOutcome, hc, hM]
  · rcases r with ⟨a, rt2, ei⟩ | ig | _
    · simp [tryClientCredentials, popOutcome, hc]
    · rcases hM : refreshMain cfg m rest now with ⟨res, tr2⟩
      simp [tryClientCredentials, popOutcome, hc, hM]
    · rcases hM : refreshMain cfg m rest now with ⟨res, tr2⟩
      simp [tryClientCredentials, popOutcome, hc, hM]

/-- C8 witness: the stale record (expiry at time 1100) refreshed at time
50000 — more than 12 hours past expiry — leads with a credential-grant
call. -/
theorem longExpired_cc_first_witness :
    (netCalls (refreshToken defaultConfig staleMgr
        [.httpError false, .httpError false] 50000).2).head?
      = some Grant.clientCredentials :=
  longExpired_cc_first defaultConfig staleMgr staleTokenData "R" 0 1100
    [.httpError false, .httpError false] 50000 (by decide) (by decide) (by decide)
    (by decide) (by decide) (by decide) (by decide)

/-- C9: the invalid-grant alert policy.  On an invalid-grant failure whose
credential-grant fallbacks also fail: below the alert threshold (default 3)
no notification is sent; when the incremented failure count reaches the
threshold exactly one notification is sent (given no earlier notification
and a configured WhatsApp client); at or past the threshold but within
`min_notification_interval` of the last sent notification, no further
notification is sent. -/
theorem invalidGrant_notification_policy (cfg : Config) (m m0 : Mgr)
    (d : TokenData) (rt : String) (c : Time) (e : Int) (r2 r3 : NetOutcome)
    (rest : List NetOutcome) (now : Time)
    (hS : shouldAttemptRecovery cfg m now = (true, m0))
    (hd : m0.tokenData = some d) (hrt : d.refreshToken = some rt)
    (hca : d.createdAt = some c) (hei : d.expiresIn = some e)
    (h12 : ¬ (c + e + 43200 < now))
    (hc : cfg.hasCreds = true) (hw : cfg.hasWebhook = false)
    (halert : cfg.maxFailuresBeforeAlert = 3)
    (h2 : r2.isOk = false) (h3 : r3.isOk = false) :
    (m0.consecutiveFailures + 1 < 3 →
      notifyCount (refreshToken cfg m
        (.httpError true :: r2 :: r3 :: rest) now).2 = 0)
    ∧ (m0.consecutiveFailures + 1 = 3 → m0.lastNotificationTime = none →
        cfg.hasWhatsapp = true →
        notifyCount (refreshToken cfg m
          (.httpError true :: r2 :: r3 :: rest) now).2 = 1)
    ∧ (∀ tN, 3 ≤ m0.consecutiveFailures + 1 →
        m0.lastNotificationTime = some tN →
        now - tN < cfg.minNotificationInterval * 60 →
        notifyCount (refreshToken cfg m
          (.httpError true :: r2 :: r3 :: rest) now).2 = 0) := by
  rw [refreshToken_attempt_eq cfg m m0 d rt c e _ now hS hd hrt hca hei h12]
  dsimp only
  unfold refreshMain
  rw [show refreshRetryLoop (.httpError true :: r2 :: r3 :: rest)
        = (some (.httpError true), r2 :: r3 :: rest, [.net .refreshGrant]) from rfl]
  dsimp only
  rw [if_pos rfl]
  refine ⟨?_, ?_, ?_⟩
  · intro hlt
    rw [if_neg (by rw [halert]; omega)]
    dsimp only
    rw [tryCC_fail_eq cfg false
      { m0 with
        consecutiveFailures := m0.consecutiveFailures + 1,
        lastErrorTime := some now, errorState := true } r2 (r3 :: rest) now hc h2]
    dsimp only
    rcases hR : attemptTokenRecovery cfg false
      { m0 with
        consecutiveFailures := m0.consecutiveFailures + 1,
        lastErrorTime := some now, errorState := true } (r3 :: rest) now
      with ⟨resr, trr⟩
    have hrc := recovery_notifyCount_small cfg
      { m0 with
        consecutiveFailures := m0.consecutiveFailures + 1,
        lastErrorTime := some now, errorState := true } r3 rest now hc hw h3
      (by simp; omega)
    rw [hR] at hrc
    dsimp only at hrc
    rcases resr with _ | ⟨mr, orr⟩ <;> simp [hrc]
  · intro hat hnone hwapp
    rw [if_pos (by rw [halert]; omega)]
    rcases hN : notifyTokenFailure cfg
        { m0 with
          consecutiveFailures := m0.consecutiveFailures + 1,
          lastErrorTime := some now, errorState := true } now with ⟨mn, trn⟩
    have h1 := notify_first_count cfg
        { m0 with
          consecutiveFailures := m0.consecutiveFailures + 1,
          lastErrorTime := some now, errorState := true } now
        (by simpa using hnone) hwapp
    have hp := notify_preserves cfg
        { m0 with
          consecutiveFailures := m0.consecutiveFailures + 1,
          lastErrorTime := some now, errorState := true } now
    rw [hN] at h1 hp
    dsimp only at h1 hp
    dsimp only
    rw [tryCC_fail_eq cfg false mn r2 (r3 :: rest) now hc h2]
    dsimp only
    rcases hR : attemptTokenRecovery cfg false mn (r3 :: rest) now with ⟨resr, trr⟩
    have hrc := recovery_notifyCount_small cfg mn r3 rest now hc hw h3
      (by rw [hp.2.1]; simp; omega)
    rw [hR] at hrc
    dsimp only at hrc
    rcases resr with _ | ⟨mr, orr⟩ <;> simp [h1, hrc]
  · intro tN hge htN hlim
    rw [if_pos (by rw [halert]; omega)]
    rw [notify_suppressed cfg
      { m0 with
        consecutiveFailures := m0.consecutiveFailures + 1,
        lastErrorTime := some now, errorState := true } now tN
      (by simpa using htN) hlim]
    dsimp only
    rw [tryCC_fail_eq cfg false
      { m0 with
        consecutiveFailures := m0.consecutiveFailures + 1,
        lastErrorTime := some now, errorState := true } r2 (r3 :: rest) now hc h2]
    dsimp only
    rcases hR : attemptTokenRecovery cfg false
      { m0 with
        consecutiveFailures := m0.consecutiveFailures + 1,
        lastErrorTime := some now, errorState := true } (r3 :: rest) now
      with ⟨resr, trr⟩
    have hrc := recovery_notifyCount_suppressed cfg
      { m0 with
        consecutiveFailures := m0.consecutiveFailures + 1,
        lastErrorTime := some now, errorState := true } r3 rest now tN hc hw h3
      (by simpa using htN) hlim
    rw [hR] at hrc
    dsimp only at hrc
    rcases resr with _ | ⟨mr, orr⟩ <;> simp [hrc]

/-- The C9 witness manager: two recorded invalid-grant failures (error
state, last failure at time 0), holding a renewable record. -/
def alertMgr : Mgr :=
  { staleMgr with
    errorState := true, consecutiveFailures := 2, lastErrorTime := some 0 }

/-- C9 witness: the third consecutive invalid-grant failure (arriving after
the 30-minute backoff window) sends exactly one notification. -/
theorem invalidGrant_notification_policy_witness :
    notifyCount (refreshToken defaultConfig alertMgr
        [.httpError true, .httpError false, .httpError false] 1801).2 = 1 :=
  (invalidGrant_notification_policy defaultConfig alertMgr alertMgr staleTokenData
      "R" 0 1100 (.httpError false) (.httpError false) [] 1801
      (by decide) (by decide) (by decide) (by decide) (by decide) (by decide)
      (by decide) (by decide) (by decide) (by decide) (by decide)).2.1
    (by decide) (by decide) (by decide)

/-- C10: when renewal fails but the stored record still has strictly
positive remaining lifetime (it is within the 600 s margin yet
`created_at + expires_in > now`), `get_valid_token()` returns the existing,
nearly-expired access token; when the stored record is already past its
declared expiry (and not so old that the 12-hour heuristic reorders the
calls) and the final credential-grant attempt also fails, it returns the
absent result. -/
theorem staleFallback_token (cfg : Config) (m : Mgr) (d : TokenData)
    (a rt : String) (c : Time) (e : Int) (now : Time)
    (hc : cfg.hasCreds = true) (hx : m.extModified = false)
    (herr : m.errorState = false) (hd : m.tokenData = some d)
    (ha : d.accessToken = some a) (hrt : d.refreshToken = some rt)
    (hca : d.createdAt = some c) (hei : d.expiresIn = some e)
    (hstale : c + e - now ≤ 600) :
    (∀ rest, 0 < c + e - now →
      ((getValidToken cfg m (.httpError false :: rest) now).1.map
        fun res => res.1) = some (some a))
    ∧ (c + e - now ≤ 0 → ¬ (c + e + 43200 < now) →
      ((getValidToken cfg m [.httpError false, .httpError false] now).1.map
        fun res => res.1) = some none) := by
  have hstale600 : isTokenExpiredOrExpiringSoon (some d) now 600 = true := by
    simp [isTokenExpiredOrExpiringSoon, hca, hei]
    linarith
  constructor
  · intro rest hpos
    have h12 : ¬ (c + e + 43200 < now) := by linarith
    unfold getValidToken
    rw [hx]
    rw [if_neg (by simp)]
    dsimp only
    rw [herr]
    rw [if_neg (by simp)]
    dsimp only
    rw [hd]
    dsimp only
    rw [ha]
    dsimp only
    rw [if_pos hstale600]
    rw [refreshToken_healthy_eq cfg m d rt c e _ now herr hd hrt hca hei h12,
      refreshMain_httpFalse]
    dsimp only
    rw [hd]
    dsimp only
    rw [ha]
    dsimp only
    have hfresh0 : isTokenExpiredOrExpiringSoon (some d) now 0 = false := by
      simp [isTokenExpiredOrExpiringSoon, hca, hei]
      linarith
    rw [if_pos hfresh0]
    rfl
  · intro hexp h12
    unfold getValidToken
    rw [hx]
    rw [if_neg (by simp)]
    dsimp only
    rw [herr]
    rw [if_neg (by simp)]
    dsimp only
    rw [hd]
    dsimp only
    rw [ha]
    dsimp only
    rw [if_pos hstale600]
    rw [refreshToken_healthy_eq cfg m d rt c e _ now herr hd hrt hca hei h12,
      refreshMain_httpFalse]
    dsimp only
    rw [hd]
    dsimp only
    rw [ha]
    dsimp only
    have hexp0 : isTokenExpiredOrExpiringSoon (some d) now 0 = true := by
      simp [isTokenExpiredOrExpiringSoon, hca, hei]
      linarith
    rw [if_neg (by simp [hexp0])]
    rw [tryCC_fail_eq cfg true
      { tokenData := some d, file := m.file, extModified := m.extModified,
        errorState := m.errorState,
        consecutiveFailures := m.consecutiveFailures + 1, lastErrorTime := some now,
        backoffMinutes := m.backoffMinutes,
        lastNotificationTime := m.lastNotificationTime } (.httpError false) [] now hc
      (by rfl)]
    rfl

/-- C10 witness: with the stale record 100 s from expiry and the
refresh-grant exchange failing, `get_valid_token()` at time 1000 returns
the old access token. -/
theorem staleFallback_token_witness :
    ((getValidToken defaultConfig staleMgr [.httpError false] 1000).1.map
      fun res => res.1) = some (some "OLD") :=
  (staleFallback_token defaultConfig staleMgr staleTokenData "OLD" "R" 0 1100 1000
      (by decide) (by decide) (by decide) (by decide) (by decide) (by decide)
      (by decide) (by decide) (by decide)).1 [] (by decide)

end Bling
